import Mathlib

/-!
Shallow embedding of the sunbeam deployment orchestrator core
(snap-openstack, `sunbeam-python/sunbeam/...`): the step/plan execution
engine (`core/common.py`), the feature-gate resolution protocol
(`feature_gates.py`), the snap-to-cluster gate sync (`hooks.py`,
`steps/sync_feature_gates.py`), the background status aggregator
(`core/common.py`), the MicroOVN steps (`steps/microovn.py`,
`core/ovn.py`) and role validation (`core/common.py`,
`provider/local/commands.py`).

Python translation conventions: exceptions become `Except`, `None`-able
values become `Option`, dicts become association lists with Python's
insert-or-overwrite semantics, and external collaborators (cluster
database client, snap config store, terraform helper, juju helper)
become explicit outcome parameters describing what each call would
return or raise.
-/

namespace Sunbeam

/-! ### core/common.py : ResultType / Result -/

/-- Embeds `ResultType` (core/common.py): tri-state outcome of a step. -/
inductive ResultType
  | COMPLETED
  | FAILED
  | SKIPPED
deriving DecidableEq, Repr

/-- Embeds `Result` (core/common.py): a result type plus a message payload
(messages are modelled as strings). -/
structure Result where
  result_type : ResultType
  message : String := ""
deriving DecidableEq, Repr

/-! ### core/common.py : run_plan

`run_plan` iterates over the plan; per step it calls `is_skip`, records
skipped results, raises `click.ClickException` on a FAILED `is_skip`
or `run` result (unless `no_raise` is set, in which case it records what
was recorded so far and breaks), and otherwise records the `run` result.

A step is abstracted by its concrete class name and the `Result` values
its `is_skip` and `run` would return (prompts have no effect on results
or on the `is_skip`/`run` call pattern and are not modelled). The
embedding additionally returns the chronological log of `is_skip`/`run`
invocations (by plan index) and the chronological log of
`results[step.__class__.__name__] = ...` dict assignments, so that
"method m of step i was never invoked" and "the mapping is keyed by
concrete type, later entries overwriting earlier ones" are statable. -/

/-- A step as `run_plan` observes it. -/
structure PlanStep where
  className : String
  isSkipResult : Result
  runResult : Result
deriving DecidableEq, Repr

/-- Which of the two result-producing step methods was invoked. -/
inductive StepMethod
  | isSkipCall
  | runCall
deriving DecidableEq, Repr

/-- Embeds a Python dict assignment `d[k] = v`: overwrite in place when the
key is present, append otherwise. -/
def dictInsert (d : List (String × Result)) (k : String) (v : Result) :
    List (String × Result) :=
  if d.any (fun p => p.1 = k) then
    d.map (fun p => if p.1 = k then (k, v) else p)
  else
    d ++ [(k, v)]

/-- Embeds a Python dict read `d.get(k)`: first entry with the key. -/
def lookupDict (d : List (String × Result)) (k : String) : Option Result :=
  match d with
  | [] => none
  | p :: rest => if p.1 = k then some p.2 else lookupDict rest k

/-- Value attached to the last record with a given key in a chronological
log of dict assignments. -/
def lastVal (log : List (String × Result)) (k : String) : Option Result :=
  match log with
  | [] => none
  | p :: rest => (lastVal rest k).or (if p.1 = k then some p.2 else none)

/-- Outcome of `run_plan`: a normal return of the results dict, or a raised
`click.ClickException`. -/
inductive PlanOutcome
  | returned (results : List (String × Result))
  | raisedClickException (msg : String)
deriving DecidableEq, Repr

/-- Loop body of `run_plan` (core/common.py lines 292-342), from step
index `i` with the results dict accumulated so far. Also returns the
invocation log and the log of dict assignments made from this point on. -/
def runPlanGo (no_raise : Bool) :
    List PlanStep → Nat → List (String × Result) →
    PlanOutcome × List (Nat × StepMethod) × List (String × Result)
  | [], _, results => (.returned results, [], [])
  | step :: rest, i, results =>
    let skip_result := step.isSkipResult
    if skip_result.result_type = .SKIPPED then
      let next := runPlanGo no_raise rest (i + 1)
        (dictInsert results step.className skip_result)
      (next.1, (i, .isSkipCall) :: next.2.1, (step.className, skip_result) :: next.2.2)
    else if skip_result.result_type = .FAILED then
      if no_raise then
        (.returned (dictInsert results step.className skip_result),
          [(i, .isSkipCall)], [(step.className, skip_result)])
      else
        (.raisedClickException skip_result.message, [(i, .isSkipCall)], [])
    else
      let result := step.runResult
      let results' := dictInsert results step.className result
      if result.result_type = .FAILED then
        if no_raise then
          (.returned results', [(i, .isSkipCall), (i, .runCall)],
            [(step.className, result)])
        else
          (.raisedClickException result.message,
            [(i, .isSkipCall), (i, .runCall)], [(step.className, result)])
      else
        let next := runPlanGo no_raise rest (i + 1) results'
        (next.1, (i, .isSkipCall) :: (i, .runCall) :: next.2.1,
          (step.className, result) :: next.2.2)

/-- Embeds `run_plan` (core/common.py): outcome, invocation log, and
chronological log of results-dict assignments. -/
def run_plan (plan : List PlanStep) (no_raise : Bool) :
    PlanOutcome × List (Nat × StepMethod) × List (String × Result) :=
  runPlanGo no_raise plan 0 []

/-! ### feature_gates.py : FeatureGateMixin -/

/-- Embeds `FeatureGate` (clusterd/models.py): a gate record in the
cluster database. -/
structure FeatureGate where
  gate_key : String
  enabled : Bool
deriving DecidableEq, Repr

/-- Outcome of `client.cluster.get_feature_gate(key)`: either a gate
record was returned, or some exception was raised (record absent,
cluster unreachable, ...). `check_gated` swallows every exception from
this call, so one raised case suffices. -/
inductive GateLookup
  | found (gate : FeatureGate)
  | raised
deriving DecidableEq, Repr

/-- Outcome of `client.cluster.get_config(enabled_config_key)` followed by
`json.loads`: a decoded list of names, one of the two caught exception
types (`ConfigItemNotFoundException`, `ClusterServiceUnavailableException`),
or an uncaught failure (e.g. a JSON decode error on a malformed value),
which propagates out of `check_gated`. -/
inductive ConfigLookup
  | value (names : List String)
  | notFound
  | unavailable
  | malformed (msg : String)
deriving DecidableEq, Repr

/-- Outcome of `snap.config.get(key)`: a value (abstracted to its Python
truthiness) or an `UnknownConfigKey` exception. -/
inductive SnapLookup
  | value (truthy : Bool)
  | unknownKey
deriving DecidableEq, Repr

/-- A capability using `FeatureGateMixin`: the `generally_available` flag
plus the optional `backend_type` / `name` identity attributes
(`hasattr` checks become `Option`). -/
structure Capability where
  generally_available : Bool := false
  backend_type : Option String := none
  name : Option String := none
deriving DecidableEq, Repr

/-- Embeds the `FeatureGateMixin.gate_key` property (feature_gates.py
lines 92-108): `feature.storage.<backend_type>` when `backend_type` is
present, else `feature.<name>` when `name` is present, else a raised
`ValueError`. Note the error is raised by the property access, not by
constructing the capability (a `Capability` value with neither attribute
is a perfectly legal value of the structure). -/
def Capability.gateKey (cap : Capability) : Except String String :=
  match cap.backend_type with
  | some bt => .ok ("feature.storage." ++ bt)
  | none =>
    match cap.name with
    | some n => .ok ("feature." ++ n)
    | none =>
      .error "FeatureGateMixin requires either 'backend_type' or 'name' attribute"

/-- Exceptions that can escape `check_gated`. -/
inductive GateExc
  | valueError (msg : String)
  | uncaughtConfigError (msg : String)
deriving DecidableEq, Repr

/-- First gate source of `check_gated` (feature_gates.py lines 148-155):
the cluster DB gate record, consulted only when a client was passed;
every exception from the lookup (including a `gate_key` `ValueError`
raised inside the `try`) is swallowed, so the source yields `true` only
when a record was returned and is enabled. -/
def clusterGateSource (cap : Capability) (hasClient : Bool)
    (getFeatureGate : String → GateLookup) : Bool :=
  if hasClient then
    match cap.gateKey with
    | .error _ => false
    | .ok key =>
      match getFeatureGate key with
      | .found gate => gate.enabled
      | .raised => false
  else false

/-- Second gate source of `check_gated` (feature_gates.py lines 157-170):
the cluster enabled-list config, consulted only when a client and an
`enabled_config_key` were passed; `ConfigItemNotFoundException` and
`ClusterServiceUnavailableException` are caught, any other failure
(malformed JSON) propagates. -/
def enabledListSource (cap : Capability) (hasClient : Bool)
    (enabledConfigKey : Option String)
    (getConfig : String → ConfigLookup) : Except GateExc Bool :=
  match hasClient, enabledConfigKey with
  | true, some cfgKey =>
    match getConfig cfgKey with
    | .value names =>
      match cap.backend_type with
      | some bt => .ok (names.contains bt)
      | none =>
        match cap.name with
        | some n => .ok (names.contains n)
        | none => .ok false
    | .notFound => .ok false
    | .unavailable => .ok false
    | .malformed msg => .error (.uncaughtConfigError msg)
  | _, _ => .ok false

/-- Third gate source of `check_gated` (feature_gates.py lines 172-177):
the local snap config value for the gate key; only `UnknownConfigKey` is
caught, so a `gate_key` `ValueError` propagates here. Yields the final
gated/not-gated verdict when reached. -/
def snapConfigSource (cap : Capability) (snapGet : String → SnapLookup) :
    Except GateExc Bool :=
  match cap.gateKey with
  | .error msg => .error (.valueError msg)
  | .ok key =>
    match snapGet key with
    | .value truthy => if truthy then .ok false else .ok true
    | .unknownKey => .ok true

/-- Embeds `FeatureGateMixin.check_gated` (feature_gates.py lines
110-180). Environment: `hasClient` says whether a cluster client was
passed, `getFeatureGate` is the cluster gate-record lookup,
`enabledConfigKey`/`getConfig` the cluster enabled-list source, and
`snapGet` the local snap config store. Returns `true` when the
capability is gated (hidden), `false` when it is enabled (visible);
propagates only the exceptions the Python code does not catch. -/
def check_gated (cap : Capability) (hasClient : Bool)
    (getFeatureGate : String → GateLookup)
    (enabledConfigKey : Option String)
    (getConfig : String → ConfigLookup)
    (snapGet : String → SnapLookup) : Except GateExc Bool :=
  if cap.generally_available then
    .ok false
  else if clusterGateSource cap hasClient getFeatureGate then
    .ok false
  else
    match enabledListSource cap hasClient enabledConfigKey getConfig with
    | .error e => .error e
    | .ok true => .ok false
    | .ok false => snapConfigSource cap snapGet

/-! ### feature_gates.py : is_feature_gate_enabled / FEATURE_GATES -/

/-- Embeds the module-level `FEATURE_GATES` registry (feature_gates.py
line 225): it is the empty dict in the source. -/
def FEATURE_GATES : List (String × Bool) := []

/-- Embeds `is_feature_gate_enabled` (feature_gates.py lines 228-262):
enabled when the gate is marked generally available in `FEATURE_GATES`
or the snap config value for the key is truthy (missing key counts as
disabled). -/
def is_feature_gate_enabled (snapGet : String → SnapLookup)
    (gateKey : String) : Bool :=
  match (FEATURE_GATES.find? (fun p => p.1 = gateKey)).map Prod.snd with
  | some true => true
  | _ =>
    match snapGet gateKey with
    | .value truthy => truthy
    | .unknownKey => false

/-! ### core/common.py : Role / validate_roles -/

/-- Embeds the `Role` enum (core/common.py). -/
inductive Role
  | CONTROL
  | COMPUTE
  | STORAGE
  | NETWORK
  | REGION_CONTROLLER
deriving DecidableEq, Repr

/-- Splitting a character list on commas, the kernel-computable model of
Python's `str.split(",")`. -/
def splitCommaChars : List Char → List (List Char)
  | [] => [[]]
  | c :: rest =>
    if c = ',' then [] :: splitCommaChars rest
    else
      match splitCommaChars rest with
      | s :: ss => (c :: s) :: ss
      | [] => [[c]]

/-- Embeds Python's `val.split(",")`. -/
def splitOnComma (s : String) : List String :=
  (splitCommaChars s.toList).map (fun cs => String.mk cs)

/-- ASCII upper-casing of one character, the kernel-computable model of
Python's `str.upper()` on the ASCII role names. -/
def upperChar (c : Char) : Char :=
  if 'a' ≤ c ∧ c ≤ 'z' then Char.ofNat (c.toNat - 32) else c

/-- Embeds Python's `role_str.upper()`. -/
def upperStr (s : String) : String :=
  String.mk (s.toList.map upperChar)

/-- Embeds `Role[name]` lookup by (already upper-cased) member name. -/
def roleFromName (s : String) : Option Role :=
  if s = "CONTROL" then some .CONTROL
  else if s = "COMPUTE" then some .COMPUTE
  else if s = "STORAGE" then some .STORAGE
  else if s = "NETWORK" then some .NETWORK
  else if s = "REGION_CONTROLLER" then some .REGION_CONTROLLER
  else none

/-- Embeds `ROLE_GATES` (core/common.py line 141): only
`REGION_CONTROLLER` is mapped to a gate key. -/
def ROLE_GATES (role : Role) : Option String :=
  match role with
  | .REGION_CONTROLLER => some "feature.multi-region"
  | _ => none

/-- Embeds `_is_role_enabled` (core/common.py): roles without a gate are
always enabled; gated roles defer to `is_feature_gate_enabled`. -/
def is_role_enabled (snapGet : String → SnapLookup) (role : Role) : Bool :=
  match ROLE_GATES role with
  | none => true
  | some gateKey => is_feature_gate_enabled snapGet gateKey

/-- First-occurrence deduplication, standing in for Python's `set`
accumulation of role strings (`roles.update(val.split(","))`). The
source then iterates over the set in an unspecified order; theorems
about `validate_roles` therefore only use order-insensitive facts. -/
def dedupFirst (xs : List String) : List String :=
  match xs with
  | [] => []
  | x :: rest =>
    if rest.contains x then dedupFirst rest else x :: dedupFirst rest

/-- Validation loop of `validate_roles` over the deduplicated role
strings: unknown names and gate-disabled roles raise
`click.BadParameter`. -/
def validateRolesGo (snapGet : String → SnapLookup) :
    List String → Except String (List Role)
  | [] => .ok []
  | s :: rest =>
    match roleFromName (upperStr s) with
    | none => .error ("'" ++ s ++ "' is not a valid role")
    | some role =>
      if is_role_enabled snapGet role then
        match validateRolesGo snapGet rest with
        | .error e => .error e
        | .ok roles => .ok (role :: roles)
      else
        .error ("Role '" ++ s ++ "' is not enabled. To use this role, " ++
          "enable the feature gate: sudo snap set openstack " ++
          ((ROLE_GATES role).getD "") ++ "=true")

/-- Embeds `validate_roles` (core/common.py lines 358-387): split each
occurrence of the option on commas, deduplicate, map every entry to a
`Role` (case-insensitively), and raise `click.BadParameter` for unknown
or gate-disabled roles. No role-combination check happens here. -/
def validate_roles (snapGet : String → SnapLookup) (value : List String) :
    Except String (List Role) :=
  validateRolesGo snapGet (dedupFirst (value.flatMap (fun v => splitOnComma v)))

/-- Embeds the role-combination handling of the `bootstrap` command body
(provider/local/commands.py lines 649-667), which runs on the list that
`validate_roles` returned: ensure the control (or region controller)
role is present, then raise `click.ClickException` when the node would
be both compute and network, or when region controller is combined with
any other role. The `join` command (lines 1354-1362) applies the same
two exclusion checks. -/
def bootstrapRoleChecks (roles : List Role) : Except String (List Role) :=
  let roles :=
    if ¬ roles.contains .CONTROL ∧ ¬ roles.contains .REGION_CONTROLLER then
      roles ++ [.CONTROL]
    else roles
  if roles.contains .NETWORK ∧ roles.contains .COMPUTE then
    .error "A node cannot be both a compute and network node at the same time."
  else if roles.contains .REGION_CONTROLLER ∧ 1 < roles.length then
    .error "The region controller role is mutually exclusive with all other roles."
  else
    .ok roles

/-! ### core/common.py : _UpdateStatusThread

The background status aggregator consumes `(status, app)` events from a
queue. Its event-processing logic (the body of `_UpdateStatusThread.run`,
core/common.py lines 490-534) maintains a per-application counter dict,
initialised to 0 for every watched application: a `STATUS_READY` event
increments the application's counter, any other event resets it to 0,
events for unwatched applications are ignored, and
`_nb_active_apps` counts an application as active when its counter is at
least 4. The thread/queue machinery itself is concurrency and is not
part of the embedding; the counter dynamics are embedded as a fold over
the chronological event list. -/

/-- Embeds `STATUS_READY` (core/common.py). -/
def STATUS_READY : String := "ready"

/-- Embeds `STATUS_NOT_READY` (core/common.py). -/
def STATUS_NOT_READY : String := "not_ready"

/-- Embeds `dict.fromkeys(self.applications, 0)`. -/
def initApps (applications : List String) : List (String × Nat) :=
  applications.map (fun a => (a, 0))

/-- Processing of one `(status, app)` event by the `run` loop of
`_UpdateStatusThread`: ignore unwatched apps, increment the counter on a
ready event, reset it to 0 otherwise. -/
def processEvent (apps : List (String × Nat)) (ev : String × String) :
    List (String × Nat) :=
  if apps.any (fun p => p.1 = ev.2) then
    if ev.1 = STATUS_READY then
      apps.map (fun p => if p.1 = ev.2 then (p.1, p.2 + 1) else p)
    else
      apps.map (fun p => if p.1 = ev.2 then (p.1, 0) else p)
  else apps

/-- Fold of `processEvent` over a chronological event list. -/
def processEvents (apps : List (String × Nat))
    (events : List (String × String)) : List (String × Nat) :=
  events.foldl processEvent apps

/-- Embeds `_UpdateStatusThread._nb_active_apps`: the number of watched
applications whose consecutive-ready counter is 4 or more, written as
the source's `sum(1 for count in apps.values() if count >= 4)`. -/
def nb_active_apps (apps : List (String × Nat)) : Nat :=
  (apps.map (fun p => if 4 ≤ p.2 then 1 else 0)).sum

/-- Counter dict read `apps[app]` for the status aggregator state. -/
def appCount (apps : List (String × Nat)) (app : String) : Option Nat :=
  match apps with
  | [] => none
  | p :: rest => if p.1 = app then some p.2 else appCount rest app

/-- The concrete event sequence of the debounce scenario: three ready
signals, one non-ready signal, then four ready signals, all for one
service. -/
def debounceEvents (svc : String) : List (String × String) :=
  [(STATUS_READY, svc), (STATUS_READY, svc), (STATUS_READY, svc),
   (STATUS_NOT_READY, svc), (STATUS_READY, svc), (STATUS_READY, svc),
   (STATUS_READY, svc), (STATUS_READY, svc)]

/-! ### steps/microovn.py : ReapplyMicroOVNTerraformPlanStep.run

The `run` method is decorated with
`tenacity.retry(wait=wait_fixed(60), stop=stop_after_delay(300),
retry=retry_if_exception_type(TerraformStateLockedException),
retry_error_callback=convert_retry_failure_as_result)`.

Modelled from the spec: `sunbeam/core/terraform.py` (the definitions of
`TerraformException` and `TerraformStateLockedException`) is not part of
the sources; per the spec's external-interface contract the
infra-as-code adapter reports `ok | locked-exception | other-exception`
and "the 'locked' failure must be a distinguishable exception type for
RetryPolicy to match against", so the locked failure is modelled as a
failure class distinct from the generic terraform failure that the
`run` body converts to a FAILED result. -/

/-- Outcome of one `tfhelper.update_tfvars_and_apply_tf` call. -/
inductive TfApplyOutcome
  | ok
  | locked (msg : String)
  | tfError (msg : String)
  | otherExc (msg : String)
deriving DecidableEq, Repr

/-- Outcome of one `jhelper.wait_application_ready` call. -/
inductive WaitOutcome
  | ready
  | timeout (msg : String)
deriving DecidableEq, Repr

/-- Exception classes that can escape one attempt of the `run` body. -/
inductive StepExc
  | stateLocked (msg : String)
  | other (msg : String)
deriving DecidableEq, Repr

/-- Embeds one undecorated execution of
`ReapplyMicroOVNTerraformPlanStep.run` (steps/microovn.py lines
179-217): a generic `TerraformException` is caught and converted to a
FAILED result, a `TimeoutError` from the readiness wait is converted to
a FAILED result, the state-locked exception and non-terraform exceptions
escape the body. -/
def reapplyRunOnce (applyOut : TfApplyOutcome) (waitOut : WaitOutcome) :
    Except StepExc Result :=
  match applyOut with
  | .locked msg => .error (.stateLocked msg)
  | .tfError msg => .ok ⟨.FAILED, msg⟩
  | .otherExc msg => .error (.other msg)
  | .ok =>
    match waitOut with
    | .timeout msg => .ok ⟨.FAILED, msg⟩
    | .ready => .ok ⟨.COMPLETED, ""⟩

/-- Embeds `convert_retry_failure_as_result` (core/common.py lines
709-713) applied to a retry state whose outcome holds an exception:
`Result(ResultType.FAILED, str(exception))`. -/
def convert_retry_failure_as_result (exc : StepExc) : Result :=
  match exc with
  | .stateLocked msg => ⟨.FAILED, msg⟩
  | .other msg => ⟨.FAILED, msg⟩

/-- Embeds the `tenacity.retry` decorator loop: attempts are modelled as
instantaneous, so the attempt at retry number `n` happens at elapsed
time `n * waitInterval`. After an attempt failing with a retryable
exception, tenacity checks `stop_after_delay`: when the elapsed time has
reached `stopDelay` it stops and (because `retry_error_callback` is set)
returns the callback's value instead of raising; otherwise it sleeps
`waitInterval` and retries. Non-retryable exceptions propagate at once.
Returns the outcome plus the list of elapsed times at which attempts
were made. `fuel` bounds the recursion and is chosen large enough that
it is never exhausted for the concrete policy (wait 60, stop 300). -/
def tenacityRetry (waitInterval stopDelay : Nat)
    (retryOn : StepExc → Bool) (errorCb : StepExc → Result)
    (attempt : Nat → Except StepExc Result) :
    Nat → Nat → Nat → (Except StepExc Result) × List Nat
  | 0, elapsed, _ => (.ok (errorCb (.other "fuel exhausted")), [elapsed])
  | fuel + 1, elapsed, n =>
    match attempt n with
    | .ok r => (.ok r, [elapsed])
    | .error e =>
      if retryOn e then
        if stopDelay ≤ elapsed then
          (.ok (errorCb e), [elapsed])
        else
          let next := tenacityRetry waitInterval stopDelay retryOn errorCb
            attempt fuel (elapsed + waitInterval) (n + 1)
          (next.1, elapsed :: next.2)
      else
        (.error e, [elapsed])

/-- Predicate of `retry_if_exception_type(TerraformStateLockedException)`. -/
def isStateLocked (e : StepExc) : Bool :=
  match e with
  | .stateLocked _ => true
  | .other _ => false

/-- Embeds the decorated `ReapplyMicroOVNTerraformPlanStep.run`: the
tenacity loop (fixed 60 s wait, 300 s elapsed-time stop, retrying only
on the state-locked exception, converting terminal retry failure into a
FAILED result) around the run body, where `applySeq`/`waitSeq` give the
collaborator outcomes of the n-th attempt. -/
def reapplyMicroOVNRun (applySeq : Nat → TfApplyOutcome)
    (waitSeq : Nat → WaitOutcome) : (Except StepExc Result) × List Nat :=
  tenacityRetry 60 300 isStateLocked convert_retry_failure_as_result
    (fun n => reapplyRunOnce (applySeq n) (waitSeq n)) 100 0 0

/-! ### core/ovn.py / steps/microovn.py : SetOvnProviderStep -/

/-- Embeds `OvnProvider` (core/ovn.py). -/
inductive OvnProvider
  | OVN_K8S
  | MICROOVN
deriving DecidableEq, Repr

/-- Embeds `DEFAULT_PROVIDER` (core/ovn.py). -/
def DEFAULT_PROVIDER : OvnProvider := .OVN_K8S

/-- Embeds the `OvnProvider(value)` enum construction: the string values
of the members, anything else raising `ValueError`. -/
def parseOvnProvider (s : String) : Option OvnProvider :=
  if s = "ovn-k8s" then some .OVN_K8S
  else if s = "microovn" then some .MICROOVN
  else none

/-- Result of `snap.config.get("ovn.provider")`: the raw string value or
an `UnknownConfigKey` exception. -/
inductive SnapStrLookup
  | value (s : String)
  | unknownKey
deriving DecidableEq, Repr

/-- Embeds `SetOvnProviderStep.get_config_from_snap` (steps/microovn.py):
returns `MICROOVN` only when the `feature.microovn-sdn` gate is enabled
and `ovn.provider` is set to `microovn`; an invalid non-empty provider
value raises `ValueError`; everything else falls back to
`DEFAULT_PROVIDER`. `snapGet` drives the gate check exactly as
`is_feature_gate_enabled` does. -/
def get_config_from_snap (snapGet : String → SnapLookup)
    (providerCfg : SnapStrLookup) : Except String OvnProvider :=
  if ¬ is_feature_gate_enabled snapGet "feature.microovn-sdn" then
    .ok DEFAULT_PROVIDER
  else
    match providerCfg with
    | .unknownKey => .ok DEFAULT_PROVIDER
    | .value s =>
      if s = "" then .ok DEFAULT_PROVIDER
      else
        match parseOvnProvider s with
        | some .MICROOVN => .ok .MICROOVN
        | some _ => .ok DEFAULT_PROVIDER
        | none =>
          .error ("Invalid value '" ++ s ++ "' for ovn.provider. " ++
            "Valid values are: ovn-k8s, microovn")

/-- Embeds `SetOvnProviderStep.is_skip` (steps/microovn.py lines
350-380): a `ValueError` from the snap config becomes FAILED; matching
cluster-recorded and snap-desired providers is SKIPPED; a mismatch after
bootstrap is FAILED with the provider-change message; otherwise the
desired provider is cached in `wanted_provider` and the step proceeds.
`configuredProvider` is `load_provider_config(client).provider` (which
may be `None`), `bootstrapped` is
`client.cluster.check_sunbeam_bootstrapped()`. Returns the `Result` and
the `wanted_provider` cache after the call; `is_skip` performs no
cluster writes. -/
def setOvnProviderIsSkip (snapGet : String → SnapLookup)
    (providerCfg : SnapStrLookup)
    (configuredProvider : Option OvnProvider) (bootstrapped : Bool) :
    Result × Option OvnProvider :=
  match get_config_from_snap snapGet providerCfg with
  | .error msg => (⟨.FAILED, msg⟩, none)
  | .ok snapValue =>
    if configuredProvider = some snapValue then
      (⟨.SKIPPED, ""⟩, none)
    else if bootstrapped then
      (⟨.FAILED, "Changing OVN provider is not supported."⟩, none)
    else
      (⟨.COMPLETED, ""⟩, some snapValue)

/-! ### hooks.py : sync_feature_gates_from_snap_to_cluster

The sync reads `snap.config.get_options("feature").as_dict()` (a nested
dict of the locally configured `feature` namespace), flattens it to
dotted leaf keys with the inner `flatten_dict` helper, and pushes each
leaf into the cluster database: update the gate record when it exists
with a different enabled value, create it when the lookup raises
(absent). Leaf values are abstracted to `Option Bool`: `none` is
Python's `None` and the `Bool` is the truthiness that
`bool(value)` computes, matching
`enabled_bool = bool(value) if value is not None else False`. -/

/-- A nested snap config value: a leaf value or a nested dict. -/
inductive ConfigTree
  | leaf (v : Option Bool)
  | node (entries : List (String × ConfigTree))
deriving Repr

/-- Embeds the inner `flatten_dict` helper of
`sync_feature_gates_from_snap_to_cluster` (hooks.py lines 104-112):
dotted concatenation of nested keys down to the leaves. -/
def flatten_dict (entries : List (String × ConfigTree)) (parent : String) :
    List (String × Option Bool) :=
  match entries with
  | [] => []
  | (k, t) :: rest =>
    let newKey := if parent = "" then k else parent ++ "." ++ k
    (match t with
     | .leaf v => [(newKey, v)]
     | .node children => flatten_dict children newKey) ++ flatten_dict rest parent

/-- Embeds `gate_key = key if key.startswith("feature.") else
f"feature.{key}"` (hooks.py line 117); the startswith test is performed
on the character lists so that it evaluates by kernel reduction. -/
def syncGateKey (key : String) : String :=
  if List.isPrefixOf "feature.".toList key.toList then key
  else "feature." ++ key

/-- Embeds `enabled_bool = bool(value) if value is not None else False`
(hooks.py line 118). -/
def syncEnabledBool (v : Option Bool) : Bool :=
  match v with
  | some truthy => truthy
  | none => false

/-- A write issued against the cluster database by the sync. -/
inductive GateWrite
  | add (key : String) (enabled : Bool)
  | update (key : String) (enabled : Bool)
deriving DecidableEq, Repr

/-- Gate-record lookup in the cluster database state (absence of the key
is what makes `client.cluster.get_feature_gate` raise). -/
def dbGet (db : List (String × Bool)) (key : String) : Option Bool :=
  match db with
  | [] => none
  | p :: rest => if p.1 = key then some p.2 else dbGet rest key

/-- Effect of `client.cluster.update_feature_gate(key, enabled)` on the
database state. -/
def dbUpdate (db : List (String × Bool)) (key : String) (enabled : Bool) :
    List (String × Bool) :=
  db.map (fun p => if p.1 = key then (key, enabled) else p)

/-- Effect of `client.cluster.add_feature_gate(key, enabled)` on the
database state. -/
def dbAdd (db : List (String × Bool)) (key : String) (enabled : Bool) :
    List (String × Bool) :=
  db ++ [(key, enabled)]

/-- Per-key body of the sync loop (hooks.py lines 116-139): update the
existing gate only when its enabled value differs, create it when the
lookup raises (record absent). Returns the new database state and the
writes issued for this key. -/
def syncOneGate (db : List (String × Bool)) (key : String)
    (v : Option Bool) : List (String × Bool) × List GateWrite :=
  let gateKey := syncGateKey key
  let enabled := syncEnabledBool v
  match dbGet db gateKey with
  | some existing =>
    if existing ≠ enabled then
      (dbUpdate db gateKey enabled, [.update gateKey enabled])
    else
      (db, [])
  | none => (dbAdd db gateKey enabled, [.add gateKey enabled])

/-- The sync loop over the flattened keys. -/
def syncGatesGo (db : List (String × Bool)) :
    List (String × Option Bool) → List (String × Bool) × List GateWrite
  | [] => (db, [])
  | (key, v) :: rest =>
    let step := syncOneGate db key v
    let next := syncGatesGo step.1 rest
    (next.1, step.2 ++ next.2)

/-- Embeds `sync_feature_gates_from_snap_to_cluster` (hooks.py lines
61-144) against a reachable cluster database: flatten the local
`feature` options and run the per-key create-if-absent /
update-if-changed loop. Returns the final database state together with
every cluster-database write performed. -/
def sync_feature_gates_from_snap_to_cluster
    (featureOptions : List (String × ConfigTree))
    (db : List (String × Bool)) : List (String × Bool) × List GateWrite :=
  syncGatesGo db (flatten_dict featureOptions "")

/-! ### steps/sync_feature_gates.py : SyncFeatureGatesToCluster -/

/-- Embeds `SyncFeatureGatesToCluster.run` (steps/sync_feature_gates.py
lines 35-52): the underlying sync either returns or raises; any raised
exception is caught and converted into a COMPLETED result carrying the
non-fatal message, so the step never fails. -/
def syncFeatureGatesStepRun (syncOutcome : Except String Unit) : Result :=
  match syncOutcome with
  | .ok _ => ⟨.COMPLETED, ""⟩
  | .error _ =>
    ⟨.COMPLETED, "Feature gate sync failed but continuing (non-fatal)"⟩

/-! ## Theorems -/

/-! ### Helper lemmas about the results-dict embedding -/

theorem lookupDict_append (d₁ d₂ : List (String × Result)) (k : String) :
    lookupDict (d₁ ++ d₂) k = (lookupDict d₁ k).or (lookupDict d₂ k) := by
  induction d₁ with
  | nil => simp [lookupDict]
  | cons p rest ih =>
    by_cases h : p.1 = k <;> simp [lookupDict, h, ih]

theorem any_eq_lookupDict_isSome (d : List (String × Result)) (k : String) :
    d.any (fun p => p.1 = k) = (lookupDict d k).isSome := by
  induction d with
  | nil => simp [lookupDict]
  | cons p rest ih =>
    by_cases h : p.1 = k <;> simp [lookupDict, h, ih]

theorem lookupDict_overwrite_self (d : List (String × Result)) (k : String)
    (v : Result) :
    lookupDict (d.map (fun p => if p.1 = k then (k, v) else p)) k =
      if (lookupDict d k).isSome then some v else none := by
  induction d with
  | nil => simp [lookupDict]
  | cons p rest ih =>
    by_cases h : p.1 = k <;> simp [lookupDict, h, ih]

theorem lookupDict_overwrite_ne (d : List (String × Result)) (k k' : String)
    (v : Result) (h : k' ≠ k) :
    lookupDict (d.map (fun p => if p.1 = k then (k, v) else p)) k' =
      lookupDict d k' := by
  induction d with
  | nil => simp [lookupDict]
  | cons p rest ih =>
    by_cases hp : p.1 = k
    · simp [lookupDict, hp, Ne.symm h, h, ih]
    · by_cases hp' : p.1 = k' <;> simp [lookupDict, hp, hp', h, ih]

theorem lookupDict_dictInsert_self (d : List (String × Result)) (k : String)
    (v : Result) : lookupDict (dictInsert d k v) k = some v := by
  unfold dictInsert
  by_cases h : d.any (fun p => p.1 = k)
  · rw [if_pos h, lookupDict_overwrite_self]
    rw [any_eq_lookupDict_isSome] at h
    simp [h]
  · rw [if_neg h, lookupDict_append]
    rw [any_eq_lookupDict_isSome] at h
    simp at h
    simp [h, lookupDict]

theorem option_or_none (a : Option Result) : a.or none = a := by
  cases a <;> rfl

theorem option_none_or (a : Option Result) : Option.or none a = a := rfl

theorem lookupDict_dictInsert_ne (d : List (String × Result)) (k k' : String)
    (v : Result) (h : k' ≠ k) :
    lookupDict (dictInsert d k v) k' = lookupDict d k' := by
  unfold dictInsert
  by_cases hmem : d.any (fun p => p.1 = k)
  · rw [if_pos hmem, lookupDict_overwrite_ne _ _ _ _ h]
  · rw [if_neg hmem, lookupDict_append]
    simp [lookupDict, Ne.symm h, option_or_none]

theorem keys_overwrite (d : List (String × Result)) (k : String) (v : Result) :
    (d.map (fun p => if p.1 = k then (k, v) else p)).map Prod.fst =
      d.map Prod.fst := by
  induction d with
  | nil => simp
  | cons p rest ih =>
    by_cases h : p.1 = k <;> simp [h, ih]

theorem nodup_keys_dictInsert (d : List (String × Result)) (k : String)
    (v : Result) (h : (d.map Prod.fst).Nodup) :
    ((dictInsert d k v).map Prod.fst).Nodup := by
  unfold dictInsert
  by_cases hmem : d.any (fun p => p.1 = k)
  · rw [if_pos hmem, keys_overwrite]
    exact h
  · rw [if_neg hmem]
    have hk : k ∉ d.map Prod.fst := by
      intro hkmem
      rw [List.mem_map] at hkmem
      obtain ⟨p, hp, hpk⟩ := hkmem
      apply hmem
      simp only [List.any_eq_true, decide_eq_true_eq]
      exact ⟨p, hp, hpk⟩
    simp only [List.map_append, List.map_cons, List.map_nil]
    refine List.Nodup.append h (List.nodup_singleton k) ?_
    intro a ha hamem
    simp only [List.mem_singleton] at hamem
    subst hamem
    exact hk ha

theorem option_or_assoc (a b c : Option Result) :
    (a.or b).or c = a.or (b.or c) := by
  cases a <;> cases b <;> rfl

/-- Specification of the `run_plan` loop when it returns normally: the
results dict has no duplicate class-name keys, and the value recorded
under a class name is the last assignment logged for that name (falling
back to whatever the accumulator already held). -/
theorem runPlanGo_returned_spec (no_raise : Bool) :
    ∀ (plan : List PlanStep) (i : Nat) (acc : List (String × Result)),
    (acc.map Prod.fst).Nodup →
    ∀ results calls recs,
      runPlanGo no_raise plan i acc = (.returned results, calls, recs) →
      (results.map Prod.fst).Nodup ∧
      ∀ c, lookupDict results c = (lastVal recs c).or (lookupDict acc c) := by
  intro plan
  induction plan with
  | nil =>
    intro i acc hacc results calls recs h
    simp only [runPlanGo] at h
    injection h with ha hb
    injection hb with hb hc
    injection ha with ha
    subst ha
    subst hc
    exact ⟨hacc, fun c => by simp [lastVal, option_none_or]⟩
  | cons step rest ih =>
    intro i acc hacc results calls recs h
    simp only [runPlanGo] at h
    by_cases hskip : step.isSkipResult.result_type = .SKIPPED
    · rw [if_pos hskip] at h
      rcases hgo : runPlanGo no_raise rest (i + 1)
          (dictInsert acc step.className step.isSkipResult) with ⟨o, cs2, rs2⟩
      rw [hgo] at h
      injection h with ho hb
      injection hb with hcalls hrecs
      subst ho
      have hacc' := nodup_keys_dictInsert acc step.className
        step.isSkipResult hacc
      obtain ⟨hnodup, hlook⟩ := ih (i + 1) _ hacc' results cs2 rs2 hgo
      refine ⟨hnodup, fun c => ?_⟩
      rw [hlook c]
      subst hrecs
      simp only [lastVal]
      rw [option_or_assoc]
      congr 1
      by_cases hc : step.className = c
      · subst hc
        simp [lookupDict_dictInsert_self]
      · rw [lookupDict_dictInsert_ne _ _ _ _ (Ne.symm hc)]
        simp [hc, option_none_or]
    · rw [if_neg hskip] at h
      by_cases hfail : step.isSkipResult.result_type = .FAILED
      · rw [if_pos hfail] at h
        cases no_raise with
        | false =>
          simp only [Bool.false_eq_true, if_false] at h
          injection h with ho hb
          injection ho
        | true =>
          simp only [if_true] at h
          injection h with ho hb
          injection hb with hcalls hrecs
          injection ho with hres
          subst hres
          subst hrecs
          refine ⟨nodup_keys_dictInsert _ _ _ hacc, fun c => ?_⟩
          simp only [lastVal]
          by_cases hc : step.className = c
          · subst hc
            simp [lookupDict_dictInsert_self, option_none_or]
          · rw [lookupDict_dictInsert_ne _ _ _ _ (Ne.symm hc)]
            simp [hc, option_none_or]
      · rw [if_neg hfail] at h
        by_cases hrfail : step.runResult.result_type = .FAILED
        · rw [if_pos hrfail] at h
          cases no_raise with
          | false =>
            simp only [Bool.false_eq_true, if_false] at h
            injection h with ho hb
            injection ho
          | true =>
            simp only [if_true] at h
            injection h with ho hb
            injection hb with hcalls hrecs
            injection ho with hres
            subst hres
            subst hrecs
            refine ⟨nodup_keys_dictInsert _ _ _ hacc, fun c => ?_⟩
            simp only [lastVal]
            by_cases hc : step.className = c
            · subst hc
              simp [lookupDict_dictInsert_self, option_none_or]
            · rw [lookupDict_dictInsert_ne _ _ _ _ (Ne.symm hc)]
              simp [hc, option_none_or]
        · rw [if_neg hrfail] at h
          rcases hgo : runPlanGo no_raise rest (i + 1)
              (dictInsert acc step.className step.runResult) with ⟨o, cs2, rs2⟩
          rw [hgo] at h
          injection h with ho hb
          injection hb with hcalls hrecs
          subst ho
          have hacc' := nodup_keys_dictInsert acc step.className
            step.runResult hacc
          obtain ⟨hnodup, hlook⟩ := ih (i + 1) _ hacc' results cs2 rs2 hgo
          refine ⟨hnodup, fun c => ?_⟩
          rw [hlook c]
          subst hrecs
          simp only [lastVal]
          rw [option_or_assoc]
          congr 1
          by_cases hc : step.className = c
          · subst hc
            simp [lookupDict_dictInsert_self]
          · rw [lookupDict_dictInsert_ne _ _ _ _ (Ne.symm hc)]
            simp [hc, option_none_or]

/-! ### Claim C2 -/

/-- C2: for a plan [A, B, C] with best-effort continuation disabled
(`no_raise = False`), a FAILED result from A's `run` makes `run_plan`
raise `click.ClickException` with neither `is_skip` nor `run` of B or C
ever invoked (the invocation log holds only step 0 entries); the same
halt happens when a step's `is_skip` returns FAILED; with `no_raise =
True` the iteration stops after recording the failed step's result and
the accumulated results mapping is returned. -/
theorem run_plan_halts_on_failed_step (A B C : PlanStep)
    (hskip : A.isSkipResult.result_type = .COMPLETED)
    (hrun : A.runResult.result_type = .FAILED) :
    (run_plan [A, B, C] false =
      (.raisedClickException A.runResult.message,
        [(0, .isSkipCall), (0, .runCall)], [(A.className, A.runResult)]))
    ∧ (∀ A' : PlanStep, A'.isSkipResult.result_type = .FAILED →
        run_plan [A', B, C] false =
          (.raisedClickException A'.isSkipResult.message,
            [(0, .isSkipCall)], []))
    ∧ (run_plan [A, B, C] true =
        (.returned [(A.className, A.runResult)],
          [(0, .isSkipCall), (0, .runCall)], [(A.className, A.runResult)]))
    ∧ (∀ A' : PlanStep, A'.isSkipResult.result_type = .FAILED →
        run_plan [A', B, C] true =
          (.returned [(A'.className, A'.isSkipResult)],
            [(0, .isSkipCall)], [(A'.className, A'.isSkipResult)])) := by
  refine ⟨?_, ?_, ?_, ?_⟩
  · simp [run_plan, runPlanGo, dictInsert, hskip, hrun]
  · intro A' h
    simp [run_plan, runPlanGo, dictInsert, h]
  · simp [run_plan, runPlanGo, dictInsert, hskip, hrun]
  · intro A' h
    simp [run_plan, runPlanGo, dictInsert, h]

/-- Witness for C2 at a concrete three-step plan whose first step fails
its run. -/
theorem run_plan_halts_on_failed_step_witness :
    (run_plan [⟨"StepA", ⟨.COMPLETED, ""⟩, ⟨.FAILED, "boom"⟩⟩,
        ⟨"StepB", ⟨.COMPLETED, ""⟩, ⟨.COMPLETED, ""⟩⟩,
        ⟨"StepC", ⟨.COMPLETED, ""⟩, ⟨.COMPLETED, ""⟩⟩] false =
      (.raisedClickException "boom",
        [(0, .isSkipCall), (0, .runCall)], [("StepA", ⟨.FAILED, "boom"⟩)]))
    ∧ (∀ A' : PlanStep, A'.isSkipResult.result_type = .FAILED →
        run_plan [A', ⟨"StepB", ⟨.COMPLETED, ""⟩, ⟨.COMPLETED, ""⟩⟩,
            ⟨"StepC", ⟨.COMPLETED, ""⟩, ⟨.COMPLETED, ""⟩⟩] false =
          (.raisedClickException A'.isSkipResult.message,
            [(0, .isSkipCall)], []))
    ∧ (run_plan [⟨"StepA", ⟨.COMPLETED, ""⟩, ⟨.FAILED, "boom"⟩⟩,
        ⟨"StepB", ⟨.COMPLETED, ""⟩, ⟨.COMPLETED, ""⟩⟩,
        ⟨"StepC", ⟨.COMPLETED, ""⟩, ⟨.COMPLETED, ""⟩⟩] true =
        (.returned [("StepA", ⟨.FAILED, "boom"⟩)],
          [(0, .isSkipCall), (0, .runCall)], [("StepA", ⟨.FAILED, "boom"⟩)]))
    ∧ (∀ A' : PlanStep, A'.isSkipResult.result_type = .FAILED →
        run_plan [A', ⟨"StepB", ⟨.COMPLETED, ""⟩, ⟨.COMPLETED, ""⟩⟩,
            ⟨"StepC", ⟨.COMPLETED, ""⟩, ⟨.COMPLETED, ""⟩⟩] true =
          (.returned [(A'.className, A'.isSkipResult)],
            [(0, .isSkipCall)], [(A'.className, A'.isSkipResult)])) :=
  run_plan_halts_on_failed_step
    ⟨"StepA", ⟨.COMPLETED, ""⟩, ⟨.FAILED, "boom"⟩⟩
    ⟨"StepB", ⟨.COMPLETED, ""⟩, ⟨.COMPLETED, ""⟩⟩
    ⟨"StepC", ⟨.COMPLETED, ""⟩, ⟨.COMPLETED, ""⟩⟩ rfl rfl

/-! ### Claim C9 -/

/-- C9: the results mapping returned by `run_plan` is keyed by the
step's concrete type name: the returned dict has no duplicate keys
(exactly one entry per type name), and the value stored under a type
name is exactly the value of the last recorded assignment for that name
in the chronological record log — so when two steps of the same concrete
type both record a result, the later one overwrites the earlier, and a
step of a distinct concrete type never disturbs another type's entry. -/
theorem run_plan_results_keyed_by_type (plan : List PlanStep)
    (no_raise : Bool) (results : List (String × Result))
    (calls : List (Nat × StepMethod)) (recs : List (String × Result))
    (h : run_plan plan no_raise = (.returned results, calls, recs)) :
    (results.map Prod.fst).Nodup ∧
    ∀ c, lookupDict results c = lastVal recs c := by
  obtain ⟨hnodup, hlook⟩ :=
    runPlanGo_returned_spec no_raise plan 0 [] (by simp) results calls recs h
  refine ⟨hnodup, fun c => ?_⟩
  rw [hlook c]
  simp [lookupDict, option_or_none]

/-- Witness for C9 at a plan holding two steps of the same concrete type
(both run to completion, the second's result overwrites the first's) and
one step of a distinct type. -/
theorem run_plan_results_keyed_by_type_witness :
    (([("Same", (⟨.COMPLETED, "second"⟩ : Result)), ("Other", ⟨.COMPLETED, "other"⟩)].map
        Prod.fst).Nodup ∧
      ∀ c, lookupDict [("Same", ⟨.COMPLETED, "second"⟩), ("Other", ⟨.COMPLETED, "other"⟩)] c =
        lastVal [("Same", (⟨.COMPLETED, "first"⟩ : Result)),
          ("Same", ⟨.COMPLETED, "second"⟩), ("Other", ⟨.COMPLETED, "other"⟩)] c) :=
  run_plan_results_keyed_by_type
    [⟨"Same", ⟨.COMPLETED, ""⟩, ⟨.COMPLETED, "first"⟩⟩,
     ⟨"Same", ⟨.COMPLETED, ""⟩, ⟨.COMPLETED, "second"⟩⟩,
     ⟨"Other", ⟨.COMPLETED, ""⟩, ⟨.COMPLETED, "other"⟩⟩] false
    [("Same", ⟨.COMPLETED, "second"⟩), ("Other", ⟨.COMPLETED, "other"⟩)]
    [(0, .isSkipCall), (0, .runCall), (1, .isSkipCall), (1, .runCall),
     (2, .isSkipCall), (2, .runCall)]
    [("Same", ⟨.COMPLETED, "first"⟩), ("Same", ⟨.COMPLETED, "second"⟩),
     ("Other", ⟨.COMPLETED, "other"⟩)]
    (by decide)

/-! ### Claim C1 -/

/-- C1: gate resolution precedence of `check_gated` for a capability
that is not generally available. (a) When a cluster client is available
and the cluster database holds a gate record with enabled=True for the
capability's gate key, the capability resolves as enabled (`.ok false`,
not gated) for every local snap config whatsoever. (b) When the cluster
gate lookup raises (record absent or cluster unreachable), that source
is skipped and a truthy local snap config value makes the capability
enabled, for any non-malformed enabled-list source. (c) When every
source is absent or false the capability resolves as not enabled
(`.ok true`, gated). (d) A generally-available capability resolves as
enabled independently of every source (no lookup can influence it).
(e) Sources being unreachable (cluster gate lookup raising, enabled-list
lookup hitting not-found/unavailable, snap key unknown) never makes the
resolver raise. -/
theorem check_gated_precedence (cap : Capability) (key : String)
    (hkey : cap.gateKey = .ok key) :
    (∀ hasClient getFeatureGate enabledConfigKey getConfig snapGet,
      cap.generally_available = true →
      check_gated cap hasClient getFeatureGate enabledConfigKey getConfig
        snapGet = .ok false)
    ∧ (∀ getFeatureGate enabledConfigKey getConfig snapGet g,
      cap.generally_available = false →
      getFeatureGate key = .found g → g.enabled = true →
      check_gated cap true getFeatureGate enabledConfigKey getConfig
        snapGet = .ok false)
    ∧ (∀ getFeatureGate enabledConfigKey getConfig snapGet,
      cap.generally_available = false →
      getFeatureGate key = .raised →
      (∀ cfgKey msg, enabledConfigKey = some cfgKey →
        getConfig cfgKey ≠ .malformed msg) →
      snapGet key = .value true →
      check_gated cap true getFeatureGate enabledConfigKey getConfig
        snapGet = .ok false)
    ∧ (∀ hasClient getFeatureGate getConfig snapGet,
      cap.generally_available = false →
      getFeatureGate key = .raised →
      (snapGet key = .unknownKey ∨ snapGet key = .value false) →
      check_gated cap hasClient getFeatureGate none getConfig
        snapGet = .ok true)
    ∧ (∀ hasClient getFeatureGate enabledConfigKey getConfig snapGet,
      (∀ cfgKey msg, enabledConfigKey = some cfgKey →
        getConfig cfgKey ≠ .malformed msg) →
      ∃ b, check_gated cap hasClient getFeatureGate enabledConfigKey
        getConfig snapGet = .ok b) := by
  have hlist : ∀ hasClient enabledConfigKey getConfig,
      (∀ cfgKey msg, enabledConfigKey = some cfgKey →
        getConfig cfgKey ≠ ConfigLookup.malformed msg) →
      ∃ bv, enabledListSource cap hasClient enabledConfigKey getConfig =
        .ok bv := by
    intro hasClient enabledConfigKey getConfig hnomal
    cases hasClient with
    | false => exact ⟨false, rfl⟩
    | true =>
      cases enabledConfigKey with
      | none => exact ⟨false, rfl⟩
      | some cfgKey =>
        cases hcfg : getConfig cfgKey with
        | value names =>
          cases hbt : cap.backend_type with
          | some bt =>
            exact ⟨names.contains bt, by simp [enabledListSource, hcfg, hbt]⟩
          | none =>
            cases hnm : cap.name with
            | some n =>
              exact ⟨names.contains n,
                by simp [enabledListSource, hcfg, hbt, hnm]⟩
            | none => exact ⟨false, by simp [enabledListSource, hcfg, hbt, hnm]⟩
        | notFound => exact ⟨false, by simp [enabledListSource, hcfg]⟩
        | unavailable => exact ⟨false, by simp [enabledListSource, hcfg]⟩
        | malformed msg => exact absurd hcfg (hnomal cfgKey msg rfl)
  refine ⟨?_, ?_, ?_, ?_, ?_⟩
  · intro hasClient getFeatureGate enabledConfigKey getConfig snapGet hga
    simp [check_gated, hga]
  · intro getFeatureGate enabledConfigKey getConfig snapGet g hga hfound hen
    simp [check_gated, hga, clusterGateSource, hkey, hfound, hen]
  · intro getFeatureGate enabledConfigKey getConfig snapGet hga hraised
      hnomal hsnap
    obtain ⟨bv, hbv⟩ := hlist true enabledConfigKey getConfig hnomal
    cases bv with
    | true =>
      simp [check_gated, hga, clusterGateSource, hkey, hraised, hbv]
    | false =>
      simp [check_gated, hga, clusterGateSource, hkey, hraised, hbv,
        snapConfigSource, hsnap]
  · intro hasClient getFeatureGate getConfig snapGet hga hraised hsnap
    have hcs : clusterGateSource cap hasClient getFeatureGate = false := by
      cases hasClient with
      | false => rfl
      | true => simp [clusterGateSource, hkey, hraised]
    have hls : enabledListSource cap hasClient none getConfig = .ok false := by
      cases hasClient <;> rfl
    rcases hsnap with h | h <;>
      simp [check_gated, hga, hcs, hls, snapConfigSource, hkey, h]
  · intro hasClient getFeatureGate enabledConfigKey getConfig snapGet hnomal
    by_cases hga : cap.generally_available
    · exact ⟨false, by simp [check_gated, hga]⟩
    · cases hcs : clusterGateSource cap hasClient getFeatureGate with
      | true => exact ⟨false, by simp [check_gated, hga, hcs]⟩
      | false =>
        obtain ⟨bv, hbv⟩ := hlist hasClient enabledConfigKey getConfig hnomal
        cases bv with
        | true => exact ⟨false, by simp [check_gated, hga, hcs, hbv]⟩
        | false =>
          cases hsn : snapGet key with
          | value truthy =>
            cases truthy with
            | true =>
              exact ⟨false, by
                simp [check_gated, hga, hcs, hbv, snapConfigSource, hkey, hsn]⟩
            | false =>
              exact ⟨true, by
                simp [check_gated, hga, hcs, hbv, snapConfigSource, hkey, hsn]⟩
          | unknownKey =>
            exact ⟨true, by
              simp [check_gated, hga, hcs, hbv, snapConfigSource, hkey, hsn]⟩

/-- Witness for C1: a non-GA feature capability whose gate key is
`feature.multi-region`, exercised against concrete environments for all
five conjuncts. -/
theorem check_gated_precedence_witness :
    (check_gated ⟨true, none, some "multi-region"⟩ false
        (fun _ => .raised) none (fun _ => .notFound)
        (fun _ => .unknownKey) = .ok false)
    ∧ (check_gated ⟨false, none, some "multi-region"⟩ true
        (fun _ => .found ⟨"feature.multi-region", true⟩) none
        (fun _ => .notFound) (fun _ => .value false) = .ok false)
    ∧ (check_gated ⟨false, none, some "multi-region"⟩ true
        (fun _ => .raised) none (fun _ => .notFound)
        (fun _ => .value true) = .ok false)
    ∧ (check_gated ⟨false, none, some "multi-region"⟩ true
        (fun _ => .raised) none (fun _ => .notFound)
        (fun _ => .unknownKey) = .ok true)
    ∧ (∃ b, check_gated ⟨false, none, some "multi-region"⟩ true
        (fun _ => .raised) none (fun _ => .notFound)
        (fun _ => .unknownKey) = .ok b) := by
  have hga := check_gated_precedence ⟨true, none, some "multi-region"⟩
    "feature.multi-region" rfl
  have h := check_gated_precedence ⟨false, none, some "multi-region"⟩
    "feature.multi-region" rfl
  refine ⟨hga.1 _ _ _ _ _ rfl, ?_, ?_, ?_, ?_⟩
  · exact h.2.1 _ none _ _ ⟨"feature.multi-region", true⟩ rfl rfl rfl
  · exact h.2.2.1 _ none _ _ rfl rfl (fun cfgKey msg hc => by cases hc) rfl
  · exact h.2.2.2.1 true _ _ _ rfl rfl (Or.inl rfl)
  · exact h.2.2.2.2 true _ none _ _ (fun cfgKey msg hc => by cases hc)

/-! ### Claim C7 -/

/-- C7: gate-key derivation. A capability carrying a `backend_type`
derives `feature.storage.<backend_type>`; a capability carrying only a
`name` derives `feature.<name>`; a capability carrying neither is a
perfectly well-formed value (nothing fails at construction) whose
`gate_key` access raises the specific missing-identity `ValueError`
rather than returning any default. -/
theorem gate_key_derivation :
    (∀ cap : Capability, ∀ bt, cap.backend_type = some bt →
      cap.gateKey = .ok ("feature.storage." ++ bt))
    ∧ (∀ cap : Capability, ∀ n, cap.backend_type = none →
      cap.name = some n → cap.gateKey = .ok ("feature." ++ n))
    ∧ (∀ cap : Capability, cap.backend_type = none → cap.name = none →
      cap.gateKey = .error
        "FeatureGateMixin requires either 'backend_type' or 'name' attribute")
    ∧ (∀ cap : Capability, cap.backend_type = none → cap.name = none →
      ∀ k, cap.gateKey ≠ .ok k) := by
  refine ⟨?_, ?_, ?_, ?_⟩
  · intro cap bt hbt
    simp [Capability.gateKey, hbt]
  · intro cap n hbt hn
    simp [Capability.gateKey, hbt, hn]
  · intro cap hbt hn
    simp [Capability.gateKey, hbt, hn]
  · intro cap hbt hn k
    simp [Capability.gateKey, hbt, hn]

/-- Witness for C7: the spec's two scenarios (`backend_type =
"pure-storage"`, `name = "multi-region"`) and a capability with neither
identity attribute. -/
theorem gate_key_derivation_witness :
    ((⟨false, some "pure-storage", none⟩ : Capability).gateKey =
      .ok "feature.storage.pure-storage")
    ∧ ((⟨false, none, some "multi-region"⟩ : Capability).gateKey =
      .ok "feature.multi-region")
    ∧ ((⟨false, none, none⟩ : Capability).gateKey = .error
        "FeatureGateMixin requires either 'backend_type' or 'name' attribute") := by
  have h := gate_key_derivation
  refine ⟨?_, ?_, h.2.2.1 ⟨false, none, none⟩ rfl rfl⟩
  · have := h.1 ⟨false, some "pure-storage", none⟩ "pure-storage" rfl
    simpa using this
  · have := h.2.1 ⟨false, none, some "multi-region"⟩ "multi-region" rfl rfl
    simpa using this

/-! ### Claim C4 -/

/-- C4: the background status aggregator counts a service as active
exactly when its consecutive-ready counter is at least 4; a ready event
increments a watched service's counter by one and any non-ready event
resets it to 0 (unwatched services are ignored); consequently, on the
event sequence ready,ready,ready,not-ready,ready,ready,ready,ready for
a single watched service, the service counts as active only after the
8th event and at no earlier point. -/
theorem status_aggregator_debounce :
    (∀ apps : List (String × Nat),
      nb_active_apps apps = (apps.filter (fun p => 4 ≤ p.2)).length)
    ∧ (∀ (apps : List (String × Nat)) (app : String),
      apps.any (fun p => p.1 = app) = true →
      appCount (processEvent apps (STATUS_READY, app)) app =
        (appCount apps app).map (· + 1))
    ∧ (∀ (apps : List (String × Nat)) (app : String) (s : String),
      apps.any (fun p => p.1 = app) = true → s ≠ STATUS_READY →
      appCount (processEvent apps (s, app)) app = some 0)
    ∧ (∀ k, k < 8 →
      nb_active_apps (processEvents (initApps ["svc"])
        ((debounceEvents "svc").take k)) = 0)
    ∧ (nb_active_apps (processEvents (initApps ["svc"])
        (debounceEvents "svc")) = 1) := by
  refine ⟨?_, ?_, ?_, by decide, by decide⟩
  · intro apps
    induction apps with
    | nil => rfl
    | cons p rest ih =>
      by_cases h : 4 ≤ p.2 <;>
        simp [nb_active_apps, List.filter, h, ih] <;>
        simp [nb_active_apps] at ih <;> omega
  · intro apps app hw
    unfold processEvent
    rw [hw]
    simp only [if_true, STATUS_READY]
    induction apps with
    | nil => simp [appCount]
    | cons p rest ih =>
      by_cases h : p.1 = app
      · simp [appCount, h]
      · simp only [List.any_cons, Bool.or_eq_true, decide_eq_true_eq] at hw
        rcases hw with h' | h'
        · exact absurd h' h
        · simp [appCount, h, ih h']
  · intro apps app s hw hs
    unfold processEvent
    rw [hw]
    simp only [if_true]
    rw [if_neg hs]
    induction apps with
    | nil => simp at hw
    | cons p rest ih =>
      by_cases h : p.1 = app
      · simp [appCount, h]
      · simp only [List.any_cons, Bool.or_eq_true, decide_eq_true_eq] at hw
        rcases hw with h' | h'
        · exact absurd h' h
        · simp [appCount, h, ih h']

/-- Witness for C4: concrete evaluations of the counter dynamics and the
8-event debounce scenario. -/
theorem status_aggregator_debounce_witness :
    (nb_active_apps [("svc", 4), ("other", 3)] =
      ([(("svc" : String), (4 : Nat)), ("other", 3)].filter
        (fun p => 4 ≤ p.2)).length)
    ∧ (appCount (processEvent [("svc", 2)] (STATUS_READY, "svc")) "svc" =
      (appCount [(("svc" : String), (2 : Nat))] "svc").map (· + 1))
    ∧ (appCount (processEvent [("svc", 3)] (STATUS_NOT_READY, "svc")) "svc" =
      some 0)
    ∧ (nb_active_apps (processEvents (initApps ["svc"])
        ((debounceEvents "svc").take 7)) = 0)
    ∧ (nb_active_apps (processEvents (initApps ["svc"])
        (debounceEvents "svc")) = 1) := by
  have h := status_aggregator_debounce
  exact ⟨h.1 [("svc", 4), ("other", 3)],
    h.2.1 [("svc", 2)] "svc" (by decide),
    h.2.2.1 [("svc", 3)] "svc" STATUS_NOT_READY (by decide) (by decide),
    h.2.2.2.1 7 (by decide), h.2.2.2.2⟩

/-! ### Claim C5 -/

/-- C5: when the terraform apply raises the state-locked exception on
every attempt, the retry-decorated
`ReapplyMicroOVNTerraformPlanStep.run` retries at the fixed 60-second
interval up to the 300-second elapsed-time ceiling (attempts at elapsed
times 0, 60, 120, 180, 240, 300) and then, through
`convert_retry_failure_as_result`, returns a FAILED Result carrying the
exception message instead of raising; only the state-locked class is
retried: a non-terraform exception propagates after a single attempt,
and a generic terraform failure is converted to a FAILED Result by the
run body itself after a single attempt, with no retry. -/
theorem reapply_retry_then_fail (lockMsg tfMsg otherMsg : String) :
    (reapplyMicroOVNRun (fun _ => .locked lockMsg) (fun _ => .ready) =
      (.ok ⟨.FAILED, lockMsg⟩, [0, 60, 120, 180, 240, 300]))
    ∧ (reapplyMicroOVNRun (fun _ => .otherExc otherMsg) (fun _ => .ready) =
      (.error (.other otherMsg), [0]))
    ∧ (reapplyMicroOVNRun (fun _ => .tfError tfMsg) (fun _ => .ready) =
      (.ok ⟨.FAILED, tfMsg⟩, [0])) := by
  refine ⟨?_, rfl, rfl⟩
  rfl

/-! ### Claim C10 -/

/-- C10: `SyncFeatureGatesToCluster.run` returns a COMPLETED Result for
every behavior of the underlying sync: a raised exception is caught and
converted to COMPLETED with the non-fatal message, so the result is
never FAILED and the step can never halt a plan — in a plan where this
step precedes another step, the next step's `is_skip` is always
reached. -/
theorem sync_feature_gates_step_never_fails :
    (∀ o : Except String Unit,
      (syncFeatureGatesStepRun o).result_type = .COMPLETED)
    ∧ (∀ e, syncFeatureGatesStepRun (.error e) =
      ⟨.COMPLETED, "Feature gate sync failed but continuing (non-fatal)"⟩)
    ∧ (∀ (o : Except String Unit) (cls : String) (no_raise : Bool)
        (B : PlanStep),
      (1, StepMethod.isSkipCall) ∈
        (run_plan [⟨cls, ⟨.COMPLETED, ""⟩, syncFeatureGatesStepRun o⟩, B]
          no_raise).2.1) := by
  refine ⟨?_, fun e => rfl, ?_⟩
  · intro o
    cases o <;> rfl
  · intro o cls no_raise B
    have hrun : (syncFeatureGatesStepRun o).result_type = .COMPLETED := by
      cases o <;> rfl
    simp only [run_plan, runPlanGo, hrun]
    simp
    cases hb : B.isSkipResult.result_type <;>
      cases no_raise <;>
        by_cases hr : B.runResult.result_type = ResultType.FAILED <;>
          simp [runPlanGo, hb, hr]

/-- Witness for C10: the sync step's run on a raised sync and on a
successful sync, and the plan reaching the next step. -/
theorem sync_feature_gates_step_never_fails_witness :
    ((syncFeatureGatesStepRun (.error "cluster down")).result_type =
      .COMPLETED)
    ∧ (syncFeatureGatesStepRun (.error "cluster down") =
      ⟨.COMPLETED, "Feature gate sync failed but continuing (non-fatal)"⟩)
    ∧ ((1, StepMethod.isSkipCall) ∈
      (run_plan [⟨"SyncFeatureGatesToCluster", ⟨.COMPLETED, ""⟩,
          syncFeatureGatesStepRun (.error "cluster down")⟩,
        ⟨"StepB", ⟨.COMPLETED, ""⟩, ⟨.COMPLETED, ""⟩⟩] false).2.1) := by
  have h := sync_feature_gates_step_never_fails
  exact ⟨h.1 (.error "cluster down"), h.2.1 "cluster down",
    h.2.2 (.error "cluster down") "SyncFeatureGatesToCluster" false
      ⟨"StepB", ⟨.COMPLETED, ""⟩, ⟨.COMPLETED, ""⟩⟩⟩

/-! ### Claim C8 -/

/-- C8: provider-choice conflict handling in `SetOvnProviderStep.is_skip`.
When the cluster is already bootstrapped and the provider recorded in
the cluster configuration differs from the provider desired by local
snap config, `is_skip` returns a FAILED Result with the
provider-change-unsupported message and leaves `wanted_provider` unset
(the conflict is never auto-resolved; `is_skip` itself writes nothing,
and the step's `run` — the only writer — is never invoked after a
non-COMPLETED `is_skip`). When the recorded provider already equals the
desired provider, `is_skip` returns SKIPPED, and `run_plan` then never
invokes `run` for the step. -/
theorem set_ovn_provider_conflict (snapGet : String → SnapLookup)
    (providerCfg : SnapStrLookup) (configured : Option OvnProvider)
    (bootstrapped : Bool) (desired : OvnProvider)
    (hdesired : get_config_from_snap snapGet providerCfg = .ok desired) :
    (configured ≠ some desired → bootstrapped = true →
      setOvnProviderIsSkip snapGet providerCfg configured bootstrapped =
        (⟨.FAILED, "Changing OVN provider is not supported."⟩, none))
    ∧ (configured = some desired →
      setOvnProviderIsSkip snapGet providerCfg configured bootstrapped =
        (⟨.SKIPPED, ""⟩, none))
    ∧ (∀ (cls : String) (runR : Result) (no_raise : Bool),
      (setOvnProviderIsSkip snapGet providerCfg configured
          bootstrapped).1.result_type ≠ .COMPLETED →
      (0, StepMethod.runCall) ∉
        (run_plan [⟨cls, (setOvnProviderIsSkip snapGet providerCfg
          configured bootstrapped).1, runR⟩] no_raise).2.1) := by
  refine ⟨?_, ?_, ?_⟩
  · intro hne hboot
    simp [setOvnProviderIsSkip, hdesired, hne, hboot]
  · intro heq
    simp [setOvnProviderIsSkip, hdesired, heq]
  · intro cls runR no_raise hnc
    rcases hr : (setOvnProviderIsSkip snapGet providerCfg configured
        bootstrapped).1 with ⟨rt, msg⟩
    rw [hr] at hnc
    cases rt with
    | COMPLETED => exact absurd rfl hnc
    | SKIPPED => simp [run_plan, runPlanGo, hr]
    | FAILED => cases no_raise <;> simp [run_plan, runPlanGo, hr]

/-- Witness for C8: concrete conflicting and matching provider
configurations (gate enabled, snap requests microovn, cluster recorded
ovn-k8s / microovn, bootstrapped). -/
theorem set_ovn_provider_conflict_witness :
    (setOvnProviderIsSkip
        (fun _ => .value true) (.value "microovn") (some .OVN_K8S) true =
      (⟨.FAILED, "Changing OVN provider is not supported."⟩, none))
    ∧ (setOvnProviderIsSkip
        (fun _ => .value true) (.value "microovn") (some .MICROOVN) true =
      (⟨.SKIPPED, ""⟩, none))
    ∧ ((0, StepMethod.runCall) ∉
      (run_plan [⟨"SetOvnProviderStep",
        (setOvnProviderIsSkip (fun _ => .value true) (.value "microovn")
          (some .OVN_K8S) true).1, ⟨.COMPLETED, ""⟩⟩] false).2.1) := by
  have h1 := set_ovn_provider_conflict (fun _ => .value true)
    (.value "microovn") (some .OVN_K8S) true .MICROOVN rfl
  have h2 := set_ovn_provider_conflict (fun _ => .value true)
    (.value "microovn") (some .MICROOVN) true .MICROOVN rfl
  exact ⟨h1.1 (by decide) rfl, h2.2.1 rfl,
    h1.2.2 "SetOvnProviderStep" ⟨.COMPLETED, ""⟩ false (by decide)⟩

/-! ### Claim C3 (corrected) -/

/-- C3 counterexample: `validate_roles` itself does not enforce role
mutual exclusion — on an input containing both compute and network it
returns the parsed roles instead of raising a validation error. -/
theorem validate_roles_accepts_compute_network :
    validate_roles (fun _ => .unknownKey) ["compute,network"] =
      .ok [.COMPUTE, .NETWORK] := rfl

theorem one_lt_length_of_two_mem {α : Type} {l : List α} {a b : α}
    (ha : a ∈ l) (hb : b ∈ l) (hab : a ≠ b) : 1 < l.length := by
  cases l with
  | nil => cases ha
  | cons x rest =>
    cases rest with
    | nil =>
      simp only [List.mem_singleton] at ha hb
      exact absurd (ha.trans hb.symm) hab
    | cons y rest2 => simp [List.length]

/-- C3 amended: the role mutual-exclusion invariant is enforced not by
`validate_roles` (which only validates role names and feature-gate
enablement) but by the bootstrap/join command bodies running on the list
that `validate_roles` returned: a parsed role list containing both
compute and network makes the command raise `click.ClickException` with
the compute/network message, a list containing region_controller
together with any other role makes it raise a `click.ClickException`,
and region_controller alone (with its `feature.multi-region` gate
enabled) passes both `validate_roles` and the command checks. -/
theorem role_mutual_exclusion_in_command_body (roles : List Role) :
    (Role.COMPUTE ∈ roles → Role.NETWORK ∈ roles →
      bootstrapRoleChecks roles = .error
        "A node cannot be both a compute and network node at the same time.")
    ∧ (∀ other : Role, Role.REGION_CONTROLLER ∈ roles → other ∈ roles →
      other ≠ .REGION_CONTROLLER →
      ∃ msg, bootstrapRoleChecks roles = .error msg)
    ∧ (validate_roles
        (fun k => if k = "feature.multi-region" then .value true
          else .unknownKey) ["region_controller"] =
        .ok [.REGION_CONTROLLER]
      ∧ bootstrapRoleChecks [.REGION_CONTROLLER] =
        .ok [.REGION_CONTROLLER]) := by
  refine ⟨?_, ?_, rfl, rfl⟩
  · intro hc hn
    unfold bootstrapRoleChecks
    by_cases hadd : ¬ roles.contains .CONTROL ∧ ¬ roles.contains
        .REGION_CONTROLLER
    · rw [if_pos hadd]
      have hn' : (roles ++ [Role.CONTROL]).contains .NETWORK = true := by
        rw [List.elem_iff]
        exact List.mem_append_left _ hn
      have hc' : (roles ++ [Role.CONTROL]).contains .COMPUTE = true := by
        rw [List.elem_iff]
        exact List.mem_append_left _ hc
      rw [if_pos ⟨hn', hc'⟩]
    · rw [if_neg hadd]
      have hn' : roles.contains .NETWORK = true := List.elem_iff.mpr hn
      have hc' : roles.contains .COMPUTE = true := List.elem_iff.mpr hc
      rw [if_pos ⟨hn', hc'⟩]
  · intro other hrc hother hne
    unfold bootstrapRoleChecks
    have hrc' : roles.contains .REGION_CONTROLLER = true :=
      List.elem_iff.mpr hrc
    have hadd : ¬ (¬ roles.contains .CONTROL ∧ ¬ roles.contains
        .REGION_CONTROLLER) := by
      intro hcontra
      exact hcontra.2 hrc'
    rw [if_neg hadd]
    by_cases hnc : roles.contains .NETWORK ∧ roles.contains .COMPUTE
    · rw [if_pos hnc]
      exact ⟨_, rfl⟩
    · rw [if_neg hnc]
      have hlen : 1 < roles.length :=
        one_lt_length_of_two_mem hrc hother (Ne.symm hne)
      rw [if_pos ⟨hrc', hlen⟩]
      exact ⟨_, rfl⟩

/-- Witness for the amended C3 at concrete role lists: compute+network
raises the compute/network message, region_controller+compute raises,
region_controller alone parses and passes. -/
theorem role_mutual_exclusion_in_command_body_witness :
    (bootstrapRoleChecks [.COMPUTE, .NETWORK] = .error
      "A node cannot be both a compute and network node at the same time.")
    ∧ (∃ msg, bootstrapRoleChecks [.REGION_CONTROLLER, .COMPUTE] =
      .error msg)
    ∧ (validate_roles
        (fun k => if k = "feature.multi-region" then .value true
          else .unknownKey) ["region_controller"] =
        .ok [.REGION_CONTROLLER]
      ∧ bootstrapRoleChecks [.REGION_CONTROLLER] =
        .ok [.REGION_CONTROLLER]) := by
  have hA := role_mutual_exclusion_in_command_body [.COMPUTE, .NETWORK]
  have hB := role_mutual_exclusion_in_command_body
    [.REGION_CONTROLLER, .COMPUTE]
  exact ⟨hA.1 (by decide) (by decide),
    hB.2.1 .COMPUTE (by decide) (by decide) (by decide), hA.2.2⟩

/-! ### Claim C6 -/

theorem dbGet_dbUpdate_self (db : List (String × Bool)) (key : String)
    (b : Bool) :
    dbGet (dbUpdate db key b) key =
      if (dbGet db key).isSome then some b else none := by
  induction db with
  | nil => simp [dbGet, dbUpdate]
  | cons p rest ih =>
    simp only [dbUpdate, List.map_cons] at ih ⊢
    by_cases h : p.1 = key <;> simp [dbGet, h, ih]

theorem dbGet_dbUpdate_ne (db : List (String × Bool)) (key key' : String)
    (b : Bool) (h : key' ≠ key) :
    dbGet (dbUpdate db key b) key' = dbGet db key' := by
  induction db with
  | nil => simp [dbGet, dbUpdate]
  | cons p rest ih =>
    simp only [dbUpdate, List.map_cons] at ih ⊢
    by_cases hp : p.1 = key
    · simp [dbGet, hp, Ne.symm h, h, ih]
    · by_cases hp' : p.1 = key' <;> simp [dbGet, hp, hp', h, ih]

theorem dbGet_dbAdd_absent (db : List (String × Bool)) (key : String)
    (b : Bool) (h : dbGet db key = none) :
    dbGet (dbAdd db key b) key = some b := by
  induction db with
  | nil => simp [dbGet, dbAdd]
  | cons p rest ih =>
    simp only [dbAdd, List.cons_append] at ih ⊢
    by_cases hp : p.1 = key
    · simp [dbGet, hp] at h
    · simp only [dbGet, hp, if_neg, if_false] at h
      simp only [dbGet, hp, if_false]
      exact ih h

theorem dbGet_dbAdd_ne (db : List (String × Bool)) (key key' : String)
    (b : Bool) (h : key' ≠ key) :
    dbGet (dbAdd db key b) key' = dbGet db key' := by
  induction db with
  | nil => simp [dbGet, dbAdd, Ne.symm h]
  | cons p rest ih =>
    simp only [dbAdd, List.cons_append] at ih ⊢
    by_cases hp : p.1 = key' <;> simp [dbGet, hp, ih]

/-- After `syncOneGate`, the database holds the synced value under the
key's gate key. -/
theorem dbGet_syncOneGate_self (db : List (String × Bool)) (key : String)
    (v : Option Bool) :
    dbGet (syncOneGate db key v).1 (syncGateKey key) =
      some (syncEnabledBool v) := by
  cases hget : dbGet db (syncGateKey key) with
  | some existing =>
    by_cases hne : existing = syncEnabledBool v
    · subst hne
      simp [syncOneGate, hget]
    · have h2 : existing ≠ syncEnabledBool v := hne
      simp only [syncOneGate, hget, h2, ne_eq, not_false_eq_true, if_true]
      rw [dbGet_dbUpdate_self, hget]
      rfl
  | none =>
    simp only [syncOneGate, hget]
    exact dbGet_dbAdd_absent db _ _ hget

/-- `syncOneGate` leaves every other gate key untouched. -/
theorem dbGet_syncOneGate_ne (db : List (String × Bool)) (key : String)
    (v : Option Bool) (gk : String) (h : gk ≠ syncGateKey key) :
    dbGet (syncOneGate db key v).1 gk = dbGet db gk := by
  cases hget : dbGet db (syncGateKey key) with
  | some existing =>
    by_cases hne : existing = syncEnabledBool v
    · subst hne
      simp [syncOneGate, hget]
    · have h2 : existing ≠ syncEnabledBool v := hne
      simp only [syncOneGate, hget, h2, ne_eq, not_false_eq_true, if_true]
      exact dbGet_dbUpdate_ne db _ gk _ h
  | none =>
    simp only [syncOneGate, hget]
    exact dbGet_dbAdd_ne db _ gk _ h

/-- `syncOneGate` is a no-op with no writes when the cluster already
holds the synced value. -/
theorem syncOneGate_noop (db : List (String × Bool)) (key : String)
    (v : Option Bool)
    (h : dbGet db (syncGateKey key) = some (syncEnabledBool v)) :
    syncOneGate db key v = (db, []) := by
  simp [syncOneGate, h]

/-- The sync loop leaves untouched every gate key not derived from its
input keys. -/
theorem dbGet_syncGatesGo_notin (flat : List (String × Option Bool)) :
    ∀ (db : List (String × Bool)) (gk : String),
    gk ∉ flat.map (fun p => syncGateKey p.1) →
    dbGet (syncGatesGo db flat).1 gk = dbGet db gk := by
  induction flat with
  | nil => intro db gk _; rfl
  | cons kv rest ih =>
    intro db gk hnotin
    simp only [List.map_cons, List.mem_cons, not_or] at hnotin
    show dbGet (syncGatesGo (syncOneGate db kv.1 kv.2).1 rest).1 gk = _
    rw [ih _ gk hnotin.2, dbGet_syncOneGate_ne db kv.1 kv.2 gk hnotin.1]

/-- After one sync pass over keys with pairwise distinct gate keys, every
synced key reads back its synced value. -/
theorem dbGet_syncGatesGo_mem (flat : List (String × Option Bool)) :
    ∀ (db : List (String × Bool)),
    (flat.map (fun p => syncGateKey p.1)).Nodup →
    ∀ p ∈ flat, dbGet (syncGatesGo db flat).1 (syncGateKey p.1) =
      some (syncEnabledBool p.2) := by
  induction flat with
  | nil => intro db _ p hp; cases hp
  | cons kv rest ih =>
    intro db hnodup p hp
    simp only [List.map_cons, List.nodup_cons] at hnodup
    rcases List.mem_cons.mp hp with hp | hp
    · subst hp
      show dbGet (syncGatesGo (syncOneGate db p.1 p.2).1 rest).1 _ = _
      rw [dbGet_syncGatesGo_notin rest _ _ hnodup.1]
      exact dbGet_syncOneGate_self db p.1 p.2
    · exact ih _ hnodup.2 p hp

/-- A sync pass over keys the database already agrees with issues no
writes and leaves the database unchanged. -/
theorem syncGatesGo_noop (flat : List (String × Option Bool)) :
    ∀ (db : List (String × Bool)),
    (∀ p ∈ flat, dbGet db (syncGateKey p.1) = some (syncEnabledBool p.2)) →
    syncGatesGo db flat = (db, []) := by
  induction flat with
  | nil => intro db _; rfl
  | cons kv rest ih =>
    intro db hagree
    have h1 : syncOneGate db kv.1 kv.2 = (db, []) :=
      syncOneGate_noop db kv.1 kv.2 (hagree kv (List.mem_cons_self kv rest))
    show (let step := syncOneGate db kv.1 kv.2
      let next := syncGatesGo step.1 rest
      (next.1, step.2 ++ next.2)) = (db, [])
    rw [h1]
    simp only
    rw [ih db (fun p hp => hagree p (List.mem_cons_of_mem kv hp))]
    rfl

/-- C6: idempotence of the snap-to-cluster feature gate sync. Per key:
the cluster record is left alone when it already holds the local enabled
value, updated when its enabled value differs, and created exactly when
it is absent. Consequently, a second sync run over the same flattened
local `feature.*` keys (no intervening local change, pairwise distinct
gate keys) issues zero cluster-database writes and leaves the database
unchanged. -/
theorem sync_feature_gates_idempotent (opts : List (String × ConfigTree))
    (db0 : List (String × Bool))
    (hnodup : ((flatten_dict opts "").map
      (fun p => syncGateKey p.1)).Nodup) :
    (∀ (db : List (String × Bool)) (key : String) (v : Option Bool),
      dbGet db (syncGateKey key) = some (syncEnabledBool v) →
      syncOneGate db key v = (db, []))
    ∧ (∀ (db : List (String × Bool)) (key : String) (v : Option Bool) e,
      dbGet db (syncGateKey key) = some e → e ≠ syncEnabledBool v →
      syncOneGate db key v =
        (dbUpdate db (syncGateKey key) (syncEnabledBool v),
          [.update (syncGateKey key) (syncEnabledBool v)]))
    ∧ (∀ (db : List (String × Bool)) (key : String) (v : Option Bool),
      dbGet db (syncGateKey key) = none →
      syncOneGate db key v =
        (dbAdd db (syncGateKey key) (syncEnabledBool v),
          [.add (syncGateKey key) (syncEnabledBool v)]))
    ∧ (sync_feature_gates_from_snap_to_cluster opts
        (sync_feature_gates_from_snap_to_cluster opts db0).1 =
      ((sync_feature_gates_from_snap_to_cluster opts db0).1, [])) := by
  refine ⟨?_, ?_, ?_, ?_⟩
  · exact syncOneGate_noop
  · intro db key v e hget hne
    simp only [syncOneGate, hget, hne, ne_eq, not_false_eq_true, if_true]
  · intro db key v hget
    simp only [syncOneGate, hget]
  · unfold sync_feature_gates_from_snap_to_cluster
    exact syncGatesGo_noop _ _
      (dbGet_syncGatesGo_mem (flatten_dict opts "") db0 hnodup)

/-- Witness for C6: a concrete nested `feature` option tree (one feature
gate and one storage-backend gate) synced twice into an empty cluster
database. -/
theorem sync_feature_gates_idempotent_witness :
    (syncOneGate [("feature.multi-region", true)] "feature.multi-region"
      (some true) = ([("feature.multi-region", true)], []))
    ∧ (syncOneGate [("feature.multi-region", false)] "feature.multi-region"
      (some true) = ([("feature.multi-region", true)],
        [.update "feature.multi-region" true]))
    ∧ (syncOneGate [] "feature.multi-region" (some true) =
      ([("feature.multi-region", true)], [.add "feature.multi-region" true]))
    ∧ (sync_feature_gates_from_snap_to_cluster
        [("feature", .node [("multi-region", .leaf (some true)),
          ("storage", .node [("ceph", .leaf (some false))])])]
        (sync_feature_gates_from_snap_to_cluster
          [("feature", .node [("multi-region", .leaf (some true)),
            ("storage", .node [("ceph", .leaf (some false))])])] []).1 =
      ((sync_feature_gates_from_snap_to_cluster
        [("feature", .node [("multi-region", .leaf (some true)),
          ("storage", .node [("ceph", .leaf (some false))])])] []).1,
        [])) := by
  have h := sync_feature_gates_idempotent
    [("feature", .node [("multi-region", .leaf (some true)),
      ("storage", .node [("ceph", .leaf (some false))])])] []
    (by simp only [flatten_dict]; decide)
  exact ⟨h.1 [("feature.multi-region", true)] "feature.multi-region"
      (some true) (by decide),
    h.2.1 [("feature.multi-region", false)] "feature.multi-region"
      (some true) false (by decide) (by decide),
    h.2.2.1 [] "feature.multi-region" (some true) (by decide),
    h.2.2.2⟩

end Sunbeam
